import Mathlib

/-!
Shallow embedding of the PID tuning-parameter model of `tools/pid`
(`params.py`, `tune.py`).  Python floats are embedded as rationals, so the
guarded-division formulas of the source are exact; Python's
`ZeroDivisionError` (raised by float division by a zero denominator) is
embedded as an explicit error value, and a raised exception carries the
instance state at the moment of the raise, mirroring Python's in-place
mutation order.
-/

/-- Embedding of `TuningType` from `params.py`. -/
inductive TuningType
  | P
  | PI
  | PD
  | PID
  deriving DecidableEq, Repr

/-- Embedding of `TuningModifier` from `tune.py`. -/
inductive TuningModifier
  | PESSEN_INTEGRAL_RULE
  | SOME_OVERSHOOT
  | NO_OVERSHOOT
  deriving DecidableEq, Repr

/-- Embedding of the `DependentTuningParams` dataclass: proportional gain,
integral time (seconds), derivative time (seconds). -/
structure DependentTuningParams where
  kp : ℚ
  ti : ℚ
  td : ℚ
  deriving DecidableEq, Repr

/-- Embedding of `DependentTuningParams.controller_type`: classification by
which of `ti`, `td` are exactly zero. -/
def DependentTuningParams.controller_type (p : DependentTuningParams) : TuningType :=
  if p.ti = 0 ∧ p.td = 0 then .P
  else if p.td = 0 then .PI
  else if p.ti = 0 then .PD
  else .PID

/-- Embedding of the `IndependentTuningParams` dataclass: proportional,
integral and derivative gains. -/
structure IndependentTuningParams where
  kp : ℚ
  ki : ℚ
  kd : ℚ
  deriving DecidableEq, Repr

/-- Embedding of `IndependentTuningParams.to_dependent`:
`ti = kp/ki if ki != 0 else 0.0`, `td = kd/kp if kp != 0 else 0.0`. -/
def IndependentTuningParams.to_dependent (p : IndependentTuningParams) :
    DependentTuningParams :=
  { kp := p.kp
    ti := if p.ki ≠ 0 then p.kp / p.ki else 0
    td := if p.kp ≠ 0 then p.kd / p.kp else 0 }

/-- Embedding of `IndependentTuningParams.from_dependent`:
`ki = kp/ti if ti != 0 else 0.0`, `kd = td*kp`. -/
def IndependentTuningParams.from_dependent (dep_params : DependentTuningParams) :
    IndependentTuningParams :=
  { kp := dep_params.kp
    ki := if dep_params.ti ≠ 0 then dep_params.kp / dep_params.ti else 0
    kd := dep_params.td * dep_params.kp }

/-- Embedding of `IndependentTuningParams.controller_type`
(inherited from `TuningParamsCodec`): classify the result of `to_dependent`. -/
def IndependentTuningParams.controller_type (p : IndependentTuningParams) :
    TuningType :=
  p.to_dependent.controller_type

/-- Embedding of the `ParallelTuningParams` dataclass.  The private storage
fields `_pv_min`/`_pv_max` are represented under their public property names;
`pband` is the proportional band (%), `int` and `deriv` the integral and
derivative times in minutes. -/
structure ParallelTuningParams where
  pv_min : ℚ
  pv_max : ℚ
  pband : ℚ
  int : ℚ
  deriv : ℚ
  deriving DecidableEq, Repr

/-- Embedding of `ParallelTuningParams.__init__`, which assigns the five
fields (Python defaults are `pv_min=0, pv_max=100, pband=100.0, int=0.0,
deriv=0.0`; callers here always pass all five positionally) and performs no
validation. -/
def ParallelTuningParams.init (pv_min pv_max pband int deriv : ℚ) :
    ParallelTuningParams :=
  { pv_min := pv_min, pv_max := pv_max, pband := pband, int := int, deriv := deriv }

/-- Errors raised by the `pv_min`/`pv_max` setters: the explicit
`ValueError` for a range violation, and Python's `ZeroDivisionError` from the
unguarded span-ratio division in `_update_p_band`. -/
inductive SetterError
  | rangeError
  | zeroDivision
  deriving DecidableEq, Repr

/-- Result of a setter call: either the updated instance, or an error paired
with the instance state at the moment the exception is raised (Python mutates
in place, so a raise after a field assignment leaves that assignment visible). -/
abbrev SetterResult := Except (SetterError × ParallelTuningParams) ParallelTuningParams

/-- Embedding of `ParallelTuningParams._update_p_band`: with the old range
saved beforehand, if the span changed, multiply `pband` by
`new_span / old_span`; Python raises `ZeroDivisionError` when `old_span` is
zero (the code compares spans but does not guard the denominator). -/
def ParallelTuningParams.update_p_band (s : ParallelTuningParams)
    (old_range : ℚ × ℚ) : SetterResult :=
  let old_span := old_range.2 - old_range.1
  let new_span := s.pv_max - s.pv_min
  if old_span ≠ new_span then
    if old_span = 0 then .error (.zeroDivision, s)
    else .ok { s with pband := s.pband * (new_span / old_span) }
  else .ok s

/-- Embedding of the `pv_min` setter: no-op when the value is unchanged;
`ValueError` when `value >= pv_max`; otherwise assign `_pv_min` and rescale
`pband` via `_update_p_band`. -/
def ParallelTuningParams.set_pv_min (s : ParallelTuningParams) (value : ℚ) :
    SetterResult :=
  if value ≠ s.pv_min then
    if value ≥ s.pv_max then .error (.rangeError, s)
    else
      let old_range := (s.pv_min, s.pv_max)
      ParallelTuningParams.update_p_band { s with pv_min := value } old_range
  else .ok s

/-- Embedding of the `pv_max` setter: no-op when the value is unchanged;
`ValueError` when `value <= pv_min`; otherwise assign `_pv_max` and rescale
`pband` via `_update_p_band`. -/
def ParallelTuningParams.set_pv_max (s : ParallelTuningParams) (value : ℚ) :
    SetterResult :=
  if value ≠ s.pv_max then
    if value ≤ s.pv_min then .error (.rangeError, s)
    else
      let old_range := (s.pv_min, s.pv_max)
      ParallelTuningParams.update_p_band { s with pv_max := value } old_range
  else .ok s

/-- Embedding of `ParallelTuningParams.to_dependent`:
`kp = 100.0/pband if pband != 0 else 0.0`, `ti = int*60.0`, `td = deriv*60.0`. -/
def ParallelTuningParams.to_dependent (p : ParallelTuningParams) :
    DependentTuningParams :=
  { kp := if p.pband ≠ 0 then 100 / p.pband else 0
    ti := p.int * 60
    td := p.deriv * 60 }

/-- Embedding of `ParallelTuningParams.from_dependent`: constructs via
`__init__` passing only `pband`, `int`, `deriv`, so `pv_min`/`pv_max` take
their Python defaults 0 and 100. -/
def ParallelTuningParams.from_dependent (dep_params : DependentTuningParams) :
    ParallelTuningParams :=
  ParallelTuningParams.init 0 100
    (if dep_params.kp ≠ 0 then 100 / dep_params.kp else 0)
    (dep_params.ti / 60)
    (dep_params.td / 60)

/-- Embedding of `ParallelTuningParams.controller_type`
(inherited from `TuningParamsCodec`): classify the result of `to_dependent`. -/
def ParallelTuningParams.controller_type (p : ParallelTuningParams) : TuningType :=
  p.to_dependent.controller_type

/-- The three concrete tuning-parameter classes, used as conversion targets
(Python passes the target class object to `convert`). -/
inductive ParamsKind
  | dependent
  | independent
  | parallel
  deriving DecidableEq, Repr

/-- A tuning-parameter value of any of the three representations. -/
inductive TuningParamsValue
  | dep (p : DependentTuningParams)
  | indep (p : IndependentTuningParams)
  | par (p : ParallelTuningParams)
  deriving DecidableEq, Repr

/-- The representation kind of a value. -/
def TuningParamsValue.kind_of : TuningParamsValue → ParamsKind
  | .dep _ => .dependent
  | .indep _ => .independent
  | .par _ => .parallel

/-- Embedding of `DependentTuningParams.convert`: return `self` when the
target is the same class, otherwise call the target codec's `from_dependent`. -/
def DependentTuningParams.convert (p : DependentTuningParams) :
    ParamsKind → TuningParamsValue
  | .dependent => .dep p
  | .independent => .indep (IndependentTuningParams.from_dependent p)
  | .parallel => .par (ParallelTuningParams.from_dependent p)

/-- Embedding of `TuningParamsCodec.convert` for the independent form:
`self.to_dependent().convert(to)` — always routed through the pivot. -/
def IndependentTuningParams.convert (p : IndependentTuningParams)
    (target : ParamsKind) : TuningParamsValue :=
  p.to_dependent.convert target

/-- Embedding of `TuningParamsCodec.convert` for the parallel form:
`self.to_dependent().convert(to)` — always routed through the pivot. -/
def ParallelTuningParams.convert (p : ParallelTuningParams)
    (target : ParamsKind) : TuningParamsValue :=
  p.to_dependent.convert target

/-- Dispatch of `convert` over a value of any representation. -/
def TuningParamsValue.convert : TuningParamsValue → ParamsKind → TuningParamsValue
  | .dep p, target => p.convert target
  | .indep p, target => p.convert target
  | .par p, target => p.convert target

/-- The PV range of a parallel-form value, `none` for the other forms. -/
def TuningParamsValue.pvRange : TuningParamsValue → Option (ℚ × ℚ)
  | .par p => some (p.pv_min, p.pv_max)
  | _ => none

/-- Embedding of `ziegler_nichols` from `tune.py`.  Returns the warning flag
(whether the ignored-modifier advisory was logged) together with the computed
`DependentTuningParams`.  The `Unsupported` raises of the source are the
fall-through branches of a closed enumeration and are unreachable here. -/
def ziegler_nichols (ku tu : ℚ) (tuning_type : TuningType)
    (tuning_modifier : Option TuningModifier) :
    Bool × DependentTuningParams :=
  let warned := tuning_type ≠ TuningType.PID ∧ tuning_modifier ≠ none
  let params : DependentTuningParams :=
    match tuning_type with
    | .P => { kp := ku * (1/2), ti := 0, td := 0 }
    | .PI => { kp := ku * (45/100), ti := tu / (12/10), td := 0 }
    | .PD => { kp := ku * (8/10), ti := 0, td := tu / 8 }
    | .PID =>
      match tuning_modifier with
      | none => { kp := ku * (6/10), ti := tu / 2, td := tu / 8 }
      | some .PESSEN_INTEGRAL_RULE =>
          { kp := ku * (7/10), ti := tu * (4/10), td := tu * (15/100) }
      | some .SOME_OVERSHOOT => { kp := ku / 3, ti := tu / 2, td := tu / 3 }
      | some .NO_OVERSHOOT => { kp := ku / 5, ti := tu / 2, td := tu / 3 }
  (decide warned, params)

/-- Whether a setter result is a raised `ZeroDivisionError`. -/
def SetterResult.isZeroDivision : SetterResult → Bool
  | .error (.zeroDivision, _) => true
  | _ => false

/-- C1: `ziegler_nichols` returns exactly the fixed multiplier table:
P gives (ku*0.5, 0, 0); PI gives (ku*0.45, tu/1.2, 0); PD gives
(ku*0.8, 0, tu/8); PID with no modifier gives (ku*0.6, tu/2, tu/8);
PID with PESSEN_INTEGRAL_RULE gives (ku*0.7, tu*0.4, tu*0.15); PID with
SOME_OVERSHOOT gives (ku/3, tu/2, tu/3); PID with NO_OVERSHOOT gives
(ku/5, tu/2, tu/3); in particular at ku=6, tu=2.5 the PID row is
(3.6, 1.25, 0.3125) and the PI row is (2.7, 2.5/1.2, 0). -/
theorem C1_ziegler_nichols_table (ku tu : ℚ) (m : Option TuningModifier) :
    (ziegler_nichols ku tu .P m).2 = ⟨ku * (5/10), 0, 0⟩ ∧
    (ziegler_nichols ku tu .PI m).2 = ⟨ku * (45/100), tu / (12/10), 0⟩ ∧
    (ziegler_nichols ku tu .PD m).2 = ⟨ku * (8/10), 0, tu / 8⟩ ∧
    (ziegler_nichols ku tu .PID none).2 = ⟨ku * (6/10), tu / 2, tu / 8⟩ ∧
    (ziegler_nichols ku tu .PID (some .PESSEN_INTEGRAL_RULE)).2 =
      ⟨ku * (7/10), tu * (4/10), tu * (15/100)⟩ ∧
    (ziegler_nichols ku tu .PID (some .SOME_OVERSHOOT)).2 =
      ⟨ku / 3, tu / 2, tu / 3⟩ ∧
    (ziegler_nichols ku tu .PID (some .NO_OVERSHOOT)).2 =
      ⟨ku / 5, tu / 2, tu / 3⟩ ∧
    (ziegler_nichols 6 (5/2) .PID none).2 = ⟨36/10, 125/100, 3125/10000⟩ ∧
    (ziegler_nichols 6 (5/2) .PI none).2 = ⟨27/10, (5/2) / (12/10), 0⟩ := by
  refine ⟨?_, ?_, ?_, ?_, ?_, ?_, ?_, ?_, ?_⟩ <;>
    simp [ziegler_nichols, DependentTuningParams.mk.injEq] <;> norm_num

/-- C2: for kp>0, ti>0, td≥0 the conversion Dependent → Independent →
Dependent reproduces (kp, ti, td) exactly, and for kp>0, ti≥0, td≥0 the
conversion Dependent → Parallel → Dependent reproduces the triple exactly. -/
theorem C2_round_trip_laws (kp ti td : ℚ) (hkp : 0 < kp) :
    (0 < ti → 0 ≤ td →
      ((TuningParamsValue.dep ⟨kp, ti, td⟩).convert .independent).convert .dependent =
        .dep ⟨kp, ti, td⟩) ∧
    (0 ≤ ti → 0 ≤ td →
      ((TuningParamsValue.dep ⟨kp, ti, td⟩).convert .parallel).convert .dependent =
        .dep ⟨kp, ti, td⟩) := by
  have hkp0 : kp ≠ 0 := ne_of_gt hkp
  constructor
  · intro hti _
    have hti0 : ti ≠ 0 := ne_of_gt hti
    have hki : kp / ti ≠ 0 := div_ne_zero hkp0 hti0
    simp [TuningParamsValue.convert, DependentTuningParams.convert,
      IndependentTuningParams.convert, IndependentTuningParams.from_dependent,
      IndependentTuningParams.to_dependent, hti0, hki, hkp0,
      DependentTuningParams.mk.injEq]
  · intro _ _
    have hpb : (100:ℚ) / kp ≠ 0 := div_ne_zero (by norm_num) hkp0
    simp [TuningParamsValue.convert, DependentTuningParams.convert,
      ParallelTuningParams.convert, ParallelTuningParams.from_dependent,
      ParallelTuningParams.to_dependent, ParallelTuningParams.init, hpb, hkp0,
      DependentTuningParams.mk.injEq]

/-- Witness for C2 at kp=2, ti=3, td=4. -/
theorem C2_round_trip_laws_witness :
    ((TuningParamsValue.dep ⟨2, 3, 4⟩).convert .independent).convert .dependent =
      TuningParamsValue.dep ⟨2, 3, 4⟩ ∧
    ((TuningParamsValue.dep ⟨2, 3, 4⟩).convert .parallel).convert .dependent =
      TuningParamsValue.dep ⟨2, 3, 4⟩ := by
  have h := C2_round_trip_laws 2 3 4 (by norm_num)
  exact ⟨h.1 (by norm_num) (by norm_num), h.2 (by norm_num) (by norm_num)⟩

/-- C3 counterexample: a Parallel value with a non-default PV range is not
returned unchanged by `convert` to its own kind — the call routes through
Dependent and rebuilds the instance with the default 0–100 range. -/
theorem C3_counterexample :
    (TuningParamsValue.par (ParallelTuningParams.init 10 50 100 0 0)).convert
        (TuningParamsValue.par (ParallelTuningParams.init 10 50 100 0 0)).kind_of ≠
      TuningParamsValue.par (ParallelTuningParams.init 10 50 100 0 0) := by
  decide

/-- C3 amended: only the Dependent form's `convert` returns the source itself
for a same-kind target; the Independent and Parallel forms always route
through the Dependent pivot, so their same-kind conversion is
`from_dependent` composed with `to_dependent`, not the identity. -/
theorem C3_identity_only_dependent :
    (∀ d : DependentTuningParams,
      (TuningParamsValue.dep d).convert .dependent = .dep d) ∧
    (∀ i : IndependentTuningParams,
      (TuningParamsValue.indep i).convert .independent =
        .indep (IndependentTuningParams.from_dependent i.to_dependent)) ∧
    (∀ p : ParallelTuningParams,
      (TuningParamsValue.par p).convert .parallel =
        .par (ParallelTuningParams.from_dependent p.to_dependent)) :=
  ⟨fun _ => rfl, fun _ => rfl, fun _ => rfl⟩

/-- C4 counterexample: from a degenerate instance with pv_min = pv_max = 5
(accepted by the validating-nothing initializer), setting pv_min to 3 reaches
the span-ratio division with a zero old span: the setter raises
ZeroDivisionError, with pv_min already mutated, instead of substituting 0. -/
theorem C4_counterexample :
    (ParallelTuningParams.init 5 5 100 0 0).set_pv_min 3 =
      .error (.zeroDivision, ParallelTuningParams.init 3 5 100 0 0) := by
  norm_num [ParallelTuningParams.set_pv_min, ParallelTuningParams.update_p_band,
    ParallelTuningParams.init]

/-- C4 amended: the conversion formulas guard every division (a zero
denominator yields 0), but the setter rescale divides by the old span guarded
only by the span-inequality test; it cannot raise a division error from an
instance satisfying pv_min < pv_max, while a degenerate zero-span instance
can make it raise. -/
theorem C4_division_guards (i : IndependentTuningParams)
    (d : DependentTuningParams) (p s : ParallelTuningParams) (v : ℚ)
    (hs : s.pv_min < s.pv_max) :
    (i.ki = 0 → i.to_dependent.ti = 0) ∧
    (i.kp = 0 → i.to_dependent.td = 0) ∧
    (d.ti = 0 → (IndependentTuningParams.from_dependent d).ki = 0) ∧
    (d.kp = 0 → (ParallelTuningParams.from_dependent d).pband = 0) ∧
    (p.pband = 0 → p.to_dependent.kp = 0) ∧
    SetterResult.isZeroDivision (s.set_pv_min v) = false ∧
    SetterResult.isZeroDivision (s.set_pv_max v) = false := by
  have hspan : s.pv_max - s.pv_min ≠ 0 := sub_ne_zero_of_ne (ne_of_gt hs)
  refine ⟨?_, ?_, ?_, ?_, ?_, ?_, ?_⟩
  · intro h; simp [IndependentTuningParams.to_dependent, h]
  · intro h; simp [IndependentTuningParams.to_dependent, h]
  · intro h; simp [IndependentTuningParams.from_dependent, h]
  · intro h
    simp [ParallelTuningParams.from_dependent, ParallelTuningParams.init, h]
  · intro h; simp [ParallelTuningParams.to_dependent, h]
  · simp only [ParallelTuningParams.set_pv_min, ParallelTuningParams.update_p_band]
    split_ifs <;> simp_all [SetterResult.isZeroDivision]
  · simp only [ParallelTuningParams.set_pv_max, ParallelTuningParams.update_p_band]
    split_ifs <;> simp_all [SetterResult.isZeroDivision]

/-- Witness for C4 at a zero-integral Independent value and a well-ranged
Parallel instance. -/
theorem C4_division_guards_witness :
    (IndependentTuningParams.to_dependent ⟨2, 0, 5⟩).ti = 0 ∧
    SetterResult.isZeroDivision
      ((ParallelTuningParams.init 0 100 100 0 0).set_pv_min 150) = false ∧
    SetterResult.isZeroDivision
      ((ParallelTuningParams.init 0 100 100 0 0).set_pv_max 150) = false := by
  have h := C4_division_guards ⟨2, 0, 5⟩ ⟨0, 0, 0⟩
      (ParallelTuningParams.init 0 100 0 0 0)
      (ParallelTuningParams.init 0 100 100 0 0) 150 (by decide)
  exact ⟨h.1 rfl, h.2.2.2.2.2.1, h.2.2.2.2.2.2⟩

/-- C5 counterexample: the initializer performs no validation, so an instance
with pv_min = 5 and pv_max = 3 is constructed without error: the invariant
pv_min < pv_max is not established at construction. -/
theorem C5_counterexample :
    ¬ ((ParallelTuningParams.init 5 3 100 0 0).pv_min <
        (ParallelTuningParams.init 5 3 100 0 0).pv_max) := by
  decide

/-- C5 amended: the invariant pv_min < pv_max is not established at
construction (no validation), but it is preserved by the setters: from any
instance satisfying it, every accepted setter result satisfies it, and a new
bound that would make pv_min ≥ pv_max is rejected with RangeError. -/
theorem C5_setters_preserve_invariant (s : ParallelTuningParams) (v : ℚ)
    (hs : s.pv_min < s.pv_max) :
    (∀ s2, s.set_pv_min v = .ok s2 → s2.pv_min < s2.pv_max) ∧
    (∀ s2, s.set_pv_max v = .ok s2 → s2.pv_min < s2.pv_max) ∧
    (v ≥ s.pv_max → s.set_pv_min v = .error (.rangeError, s)) ∧
    (v ≤ s.pv_min → s.set_pv_max v = .error (.rangeError, s)) := by
  refine ⟨?_, ?_, ?_, ?_⟩
  · intro s2 h
    simp only [ParallelTuningParams.set_pv_min,
      ParallelTuningParams.update_p_band] at h
    split_ifs at h <;> simp_all
    all_goals subst h
    all_goals simp_all
  · intro s2 h
    simp only [ParallelTuningParams.set_pv_max,
      ParallelTuningParams.update_p_band] at h
    split_ifs at h <;> simp_all
    all_goals subst h
    all_goals simp_all
  · intro hv
    have h1 : v ≠ s.pv_min := ne_of_gt (lt_of_lt_of_le hs hv)
    simp [ParallelTuningParams.set_pv_min, h1, hv]
  · intro hv
    have h1 : v ≠ s.pv_max := ne_of_lt (lt_of_le_of_lt hv hs)
    simp [ParallelTuningParams.set_pv_max, h1, hv]

/-- Witness for C5 at pv_min=0, pv_max=100, proposed pv_min=150. -/
theorem C5_setters_preserve_invariant_witness :
    (ParallelTuningParams.init 0 100 100 0 0).set_pv_min 150 =
      .error (.rangeError, ParallelTuningParams.init 0 100 100 0 0) := by
  have h := C5_setters_preserve_invariant
      (ParallelTuningParams.init 0 100 100 0 0) 150 (by decide)
  exact h.2.2.1 (by norm_num [ParallelTuningParams.init])

/-- C6 counterexample: the Independent value (kp=0, ki=5, kd=0) has a
nonzero integral-like gain, so the claimed rule classifies it PI, but the
code computes ti = kp/ki = 0 and classifies it P. -/
theorem C6_counterexample :
    (⟨0, 5, 0⟩ : IndependentTuningParams).ki ≠ 0 ∧
    (⟨0, 5, 0⟩ : IndependentTuningParams).kd = 0 ∧
    IndependentTuningParams.controller_type ⟨0, 5, 0⟩ ≠ TuningType.PI := by
  refine ⟨by norm_num, rfl, ?_⟩
  norm_num [IndependentTuningParams.controller_type,
    IndependentTuningParams.to_dependent, DependentTuningParams.controller_type]
  decide

/-- C6 amended: the four-case zero-test rule holds for the Dependent form on
(ti, td) and for the Independent form on (ki, kd) provided kp is nonzero;
when kp = 0 the code classifies every Independent value as P, because
ti = kp/ki collapses to 0 and td is guarded to 0. -/
theorem C6_classification_rule (d : DependentTuningParams)
    (i : IndependentTuningParams) (hkp : i.kp ≠ 0) :
    (d.ti = 0 ∧ d.td = 0 → d.controller_type = .P) ∧
    (d.ti ≠ 0 ∧ d.td = 0 → d.controller_type = .PI) ∧
    (d.ti = 0 ∧ d.td ≠ 0 → d.controller_type = .PD) ∧
    (d.ti ≠ 0 ∧ d.td ≠ 0 → d.controller_type = .PID) ∧
    (i.ki = 0 ∧ i.kd = 0 → i.controller_type = .P) ∧
    (i.ki ≠ 0 ∧ i.kd = 0 → i.controller_type = .PI) ∧
    (i.ki = 0 ∧ i.kd ≠ 0 → i.controller_type = .PD) ∧
    (i.ki ≠ 0 ∧ i.kd ≠ 0 → i.controller_type = .PID) ∧
    (∀ j : IndependentTuningParams, j.kp = 0 → j.controller_type = .P) := by
  refine ⟨?_, ?_, ?_, ?_, ?_, ?_, ?_, ?_, ?_⟩
  · rintro ⟨h1, h2⟩; simp [DependentTuningParams.controller_type, h1, h2]
  · rintro ⟨h1, h2⟩; simp [DependentTuningParams.controller_type, h1, h2]
  · rintro ⟨h1, h2⟩; simp [DependentTuningParams.controller_type, h1, h2]
  · rintro ⟨h1, h2⟩; simp [DependentTuningParams.controller_type, h1, h2]
  · rintro ⟨h1, h2⟩
    simp [IndependentTuningParams.controller_type,
      IndependentTuningParams.to_dependent,
      DependentTuningParams.controller_type, h1, h2, hkp]
  · rintro ⟨h1, h2⟩
    have hd : i.kp / i.ki ≠ 0 := div_ne_zero hkp h1
    simp [IndependentTuningParams.controller_type,
      IndependentTuningParams.to_dependent,
      DependentTuningParams.controller_type, h1, h2, hkp, hd]
  · rintro ⟨h1, h2⟩
    have hd : i.kd / i.kp ≠ 0 := div_ne_zero h2 hkp
    simp [IndependentTuningParams.controller_type,
      IndependentTuningParams.to_dependent,
      DependentTuningParams.controller_type, h1, h2, hkp, hd]
  · rintro ⟨h1, h2⟩
    have hd1 : i.kp / i.ki ≠ 0 := div_ne_zero hkp h1
    have hd2 : i.kd / i.kp ≠ 0 := div_ne_zero h2 hkp
    simp [IndependentTuningParams.controller_type,
      IndependentTuningParams.to_dependent,
      DependentTuningParams.controller_type, h1, h2, hkp, hd1, hd2]
  · intro j hj
    simp [IndependentTuningParams.controller_type,
      IndependentTuningParams.to_dependent,
      DependentTuningParams.controller_type, hj]

/-- Witness for C6 at a PI-shaped Dependent value and a PD-shaped
Independent value with nonzero kp. -/
theorem C6_classification_rule_witness :
    DependentTuningParams.controller_type ⟨1, 5, 0⟩ = TuningType.PI ∧
    IndependentTuningParams.controller_type ⟨1, 0, 3⟩ = TuningType.PD := by
  have h := C6_classification_rule ⟨1, 5, 0⟩ ⟨1, 0, 3⟩ (by norm_num)
  exact ⟨h.2.1 ⟨by norm_num, rfl⟩, h.2.2.2.2.2.2.1 ⟨rfl, by norm_num⟩⟩

/-- C7: on an instance with pv_min < pv_max, a setter call with the current
value is a no-op leaving every field unchanged, and an accepted mutation
rescales pband by exactly new_span / old_span; in particular from
(pv_min=0, pv_max=100, pband=100), setting pv_max to 200 yields pband=200. -/
theorem C7_rescale (s : ParallelTuningParams) (v : ℚ)
    (hs : s.pv_min < s.pv_max) :
    (s.set_pv_min s.pv_min = .ok s) ∧
    (s.set_pv_max s.pv_max = .ok s) ∧
    (∀ s2, v ≠ s.pv_min → s.set_pv_min v = .ok s2 →
      s2 = { s with pv_min := v,
                    pband := s.pband * ((s.pv_max - v) / (s.pv_max - s.pv_min)) }) ∧
    (∀ s2, v ≠ s.pv_max → s.set_pv_max v = .ok s2 →
      s2 = { s with pv_max := v,
                    pband := s.pband * ((v - s.pv_min) / (s.pv_max - s.pv_min)) }) ∧
    (ParallelTuningParams.init 0 100 100 0 0).set_pv_max 200 =
      .ok (ParallelTuningParams.init 0 200 200 0 0) := by
  have hspan : s.pv_max - s.pv_min ≠ 0 := sub_ne_zero_of_ne (ne_of_gt hs)
  refine ⟨?_, ?_, ?_, ?_, ?_⟩
  · simp [ParallelTuningParams.set_pv_min]
  · simp [ParallelTuningParams.set_pv_max]
  · intro s2 hv h
    simp only [ParallelTuningParams.set_pv_min,
      ParallelTuningParams.update_p_band] at h
    split_ifs at h <;> simp_all
  · intro s2 hv h
    simp only [ParallelTuningParams.set_pv_max,
      ParallelTuningParams.update_p_band] at h
    split_ifs at h <;> simp_all
  · norm_num [ParallelTuningParams.set_pv_max,
      ParallelTuningParams.update_p_band, ParallelTuningParams.init]

/-- Witness for C7: a same-value no-op and the literal 0–100 to 0–200
rescale. -/
theorem C7_rescale_witness :
    (ParallelTuningParams.init 10 30 50 2 3).set_pv_min 10 =
      .ok (ParallelTuningParams.init 10 30 50 2 3) ∧
    (ParallelTuningParams.init 0 100 100 0 0).set_pv_max 200 =
      .ok (ParallelTuningParams.init 0 200 200 0 0) := by
  have h := C7_rescale (ParallelTuningParams.init 10 30 50 2 3) 20 (by decide)
  exact ⟨h.1, h.2.2.2.2⟩

/-- C8 counterexample: on a degenerate instance (pv_min=5, pv_max=3, which
the initializer accepts unvalidated), proposing pv_min=5 leaves
pv_min ≥ pv_max, yet the setter returns successfully as a no-op instead of
failing with RangeError. -/
theorem C8_counterexample :
    (5:ℚ) ≥ (ParallelTuningParams.init 5 3 100 0 0).pv_max ∧
    (ParallelTuningParams.init 5 3 100 0 0).set_pv_min 5 =
      .ok (ParallelTuningParams.init 5 3 100 0 0) := by
  constructor
  · norm_num [ParallelTuningParams.init]
  · norm_num [ParallelTuningParams.set_pv_min, ParallelTuningParams.init]

/-- C8 amended: on every instance satisfying pv_min < pv_max, a proposed
bound that would make pv_min ≥ pv_max fails with RangeError raised before any
mutation, so the error carries the instance with all five fields unchanged;
only on a degenerate instance (constructible because the initializer does not
validate) can such a proposal instead be silently accepted as a no-op. -/
theorem C8_reject_all_or_nothing (s : ParallelTuningParams) (v : ℚ)
    (hs : s.pv_min < s.pv_max) :
    (v ≥ s.pv_max → s.set_pv_min v = .error (.rangeError, s)) ∧
    (v ≤ s.pv_min → s.set_pv_max v = .error (.rangeError, s)) := by
  constructor
  · intro hv
    have h1 : v ≠ s.pv_min := ne_of_gt (lt_of_lt_of_le hs hv)
    simp [ParallelTuningParams.set_pv_min, h1, hv]
  · intro hv
    have h1 : v ≠ s.pv_max := ne_of_lt (lt_of_le_of_lt hv hs)
    simp [ParallelTuningParams.set_pv_max, h1, hv]

/-- Witness for C8 at pv_min=20, pv_max=80, proposed pv_min=90. -/
theorem C8_reject_all_or_nothing_witness :
    (ParallelTuningParams.init 20 80 40 1 2).set_pv_min 90 =
      .error (.rangeError, ParallelTuningParams.init 20 80 40 1 2) := by
  have h := C8_reject_all_or_nothing
      (ParallelTuningParams.init 20 80 40 1 2) 90 (by decide)
  exact h.1 (by norm_num [ParallelTuningParams.init])

/-- C9: supplying a modifier with a non-PID tuning type surfaces the warning
(a non-fatal advisory), discards the modifier, and still returns the plain
P/PI/PD table row; in particular ziegler_nichols(6, 2.5, PI, SOME_OVERSHOOT)
returns (kp=2.7, ti=2.5/1.2, td=0) with the warning raised. -/
theorem C9_ignored_modifier (ku tu : ℚ) (t : TuningType) (m : TuningModifier)
    (ht : t ≠ .PID) :
    (ziegler_nichols ku tu t (some m)).1 = true ∧
    (ziegler_nichols ku tu t (some m)).2 = (ziegler_nichols ku tu t none).2 ∧
    ziegler_nichols 6 (5/2) .PI (some .SOME_OVERSHOOT) =
      (true, ⟨27/10, (5/2) / (12/10), 0⟩) := by
  refine ⟨?_, ?_, ?_⟩
  · simp [ziegler_nichols, ht]
  · cases t with
    | P => rfl
    | PI => rfl
    | PD => rfl
    | PID => exact absurd rfl ht
  · simp [ziegler_nichols, Prod.ext_iff, DependentTuningParams.mk.injEq]
    norm_num

/-- Witness for C9 at ku=6, tu=2.5, type PI, modifier SOME_OVERSHOOT. -/
theorem C9_ignored_modifier_witness :
    (ziegler_nichols 6 (5/2) .PI (some .SOME_OVERSHOOT)).1 = true ∧
    (ziegler_nichols 6 (5/2) .PI (some .SOME_OVERSHOOT)).2 =
      (ziegler_nichols 6 (5/2) .PI none).2 := by
  have h := C9_ignored_modifier 6 (5/2) .PI .SOME_OVERSHOOT (by decide)
  exact ⟨h.1, h.2.1⟩

/-- C10: ParallelTuningParams.from_dependent always yields the construction
defaults pv_min=0 and pv_max=100, and every conversion into the Parallel
form — for a source of any representation, including Parallel itself via the
Dependent pivot — yields the default 0–100 PV range. -/
theorem C10_parallel_defaults (d : DependentTuningParams)
    (x : TuningParamsValue) :
    (ParallelTuningParams.from_dependent d).pv_min = 0 ∧
    (ParallelTuningParams.from_dependent d).pv_max = 100 ∧
    (x.convert .parallel).pvRange = some (0, 100) := by
  refine ⟨rfl, rfl, ?_⟩
  cases x <;> rfl
